import Mathlib

/-!
A verification development for the `openreview-mcp` repository: a shallow
embedding of `src/introspect.py` and `src/server.py` (the static metadata
catalog plus its pure query operations), together with theorems settling the
specification's claims about those operations.

Python strings are modelled as Lean `String`s; the Python string operations
used by the code (`str.lower`, `str.strip`, the `in` substring test,
`str.startswith`) are modelled below as functions on the underlying character
lists.  Python dicts with an optional key are modelled with `Option` fields,
and `dict.get(k, d)` becomes `Option.getD`.  The transport-layer metadata the
server attaches to responses (timestamps, logging) is external I/O plumbing
outside the core contract and is not modelled.
-/

/-- Python `str.lower()` restricted to the ASCII alphabet (the dataset and the
code use only ASCII): lowercase every character. -/
def pyLower (s : String) : String := ⟨s.data.map Char.toLower⟩

/-- Python whitespace for `str.strip()`: space, tab, newline, carriage return,
vertical tab, form feed. -/
def pyIsSpace (c : Char) : Bool :=
  c == ' ' || c == '\t' || c == '\n' || c == '\r' || c == '\x0b' || c == '\x0c'

/-- Python `str.strip()`: drop whitespace from both ends. -/
def pyStrip (s : String) : String :=
  ⟨(((s.data.dropWhile pyIsSpace).reverse.dropWhile pyIsSpace).reverse)⟩

/-- Contiguous-sublist test on character lists, structurally recursive on the
haystack: `needle` occurs at the front, or somewhere in the tail. -/
def pyInList (needle : List Char) : List Char → Bool
  | [] => needle.isEmpty
  | c :: t => needle.isPrefixOf (c :: t) || pyInList needle t

/-- Python `needle in hay` on strings: contiguous substring test. -/
def pyIn (needle hay : String) : Bool := pyInList needle.data hay.data

/-- Python `s.startswith(p)`. -/
def pyStartsWith (p s : String) : Bool := p.data.isPrefixOf s.data

/-- A method record of a class in the catalog: the dict
`{"name": …, "signature": …, "docstring": …}` of `introspect.py`. -/
structure MethodD where
  name : String
  signature : String
  docstring : Option String
deriving DecidableEq

/-- A class record of the catalog: the dict
`{"name": …, "docstring": …, "module": …, "methods": […]}`.  The `methods`
key is optional because the code reads it with `.get("methods", [])` and the
server may remove it (`cls.pop("methods", None)`). -/
structure ClassD where
  name : String
  docstring : String
  module : String
  methods : Option (List MethodD)
deriving DecidableEq

/-- A Python literal default value occurring in the parameter records of the
tool catalog (only booleans and `None` occur). -/
inductive PyLit where
  | pbool (b : Bool)
  | pnone
deriving DecidableEq

/-- A parameter record of a standalone tool:
`{"name": …, "type": …, "required": …, ["default": …,] "description": …}`. -/
structure ParamD where
  name : String
  type : String
  required : Bool
  default : Option PyLit
  description : String
deriving DecidableEq

/-- A function-shaped record: either a standalone tool from
`get_openreview_tools` (which carries `parameters`) or a method-derived
function built by `get_openreview_functions` (which does not).  `docstring`,
`parameters` and `return_type` are optional keys, read by the code with
`.get`. -/
structure FunctionD where
  name : String
  docstring : Option String
  module : String
  signature : String
  function_type : String
  parameters : Option (List ParamD)
  return_type : Option String
deriving DecidableEq
set_option maxHeartbeats 1600000 in
/-- The literal class catalog of the repository, one record per class (from
`get_openreview_classes` in `introspect.py`). -/
def get_openreview_classes : List ClassD := [
  ClassD.mk "Client" "Client for API 1 interactions (Legacy API).\n\n            :param baseurl: URL to the host, example: https://api.openreview.net. If none is provided, it defaults to the environment variable \x60OPENREVIEW_API_BASEURL\x60\n            :type baseurl: str, optional\n            :param username: OpenReview username. If none is provided, it defaults to the environment variable \x60OPENREVIEW_USERNAME\x60\n            :type username: str, optional\n            :param password: OpenReview password. If none is provided, it defaults to the environment variable \x60OPENREVIEW_PASSWORD\x60\n            :type password: str, optional\n            :param token: Session token. This token can be provided instead of the username and password if the user had already logged in\n            :type token: str, optional\n            " "openreview" (some [
    MethodD.mk "__init__" "__init__(baseurl=None, username=None, password=None, token=None)" (some "Initialize the OpenReview API 1 client"),
    MethodD.mk "impersonate" "impersonate(group_id)" (some "Impersonate a group"),
    MethodD.mk "login_user" "login_user(username=None, password=None)" (some "Logs in a registered user"),
    MethodD.mk "get_group" "get_group(id)" (some "Get a single Group by id if available"),
    MethodD.mk "get_invitation" "get_invitation(id)" (some "Get a single invitation by id if available"),
    MethodD.mk "get_note" "get_note(id)" (some "Get a single Note by id if available"),
    MethodD.mk "get_tag" "get_tag(id)" (some "Get a single Tag by id if available"),
    MethodD.mk "get_edge" "get_edge(id)" (some "Get a single Edge by id if available"),
    MethodD.mk "get_profile" "get_profile(email_or_id=None)" (some "Get a single Profile by id, if available"),
    MethodD.mk "get_profiles" "get_profiles(ids=None, emails=None)" (some "Get a list of Profiles by ids or emails"),
    MethodD.mk "search_profiles" "search_profiles(confirmedEmails=None, emails=None, ids=None, term=None, first=None, middle=None, last=None, fullname=None)" (some "Gets a list of profiles using either their ids or corresponding emails"),
    MethodD.mk "get_pdf" "get_pdf(id, is_reference=False)" (some "Gets the binary content of a pdf using the provided note/reference id"),
    MethodD.mk "get_attachment" "get_attachment(id, field_name)" (some "Gets the binary content of an attachment using the provided note id"),
    MethodD.mk "get_venues" "get_venues(id=None, ids=None, invitations=None)" (some "Gets list of Note objects based on the filters provided"),
    MethodD.mk "put_attachment" "put_attachment(file, invitation, name)" (some "Uploads a file to the openreview server"),
    MethodD.mk "post_profile" "post_profile(profile)" (some "Updates a Profile"),
    MethodD.mk "get_groups" "get_groups(id=None, regex=None, member=None, host=None, signatory=None, web=None, limit=None, offset=None, with_count=None, sort=None, stream=False)" (some "Gets list of Group objects based on the filters provided"),
    MethodD.mk "get_all_groups" "get_all_groups(id=None, regex=None, member=None, host=None, signatory=None, web=None, with_count=None, sort=None)" (some "Gets list of Group objects based on the filters provided"),
    MethodD.mk "get_invitations" "get_invitations(id=None, ids=None, invitee=None, replytoNote=None, replyForum=None, signature=None, note=None, regex=None, tags=None, limit=None, offset=None, minduedate=None, duedate=None, pastdue=None, replyto=None, details=None, expired=None, sort=None, type=None, with_count=None)" (some "Gets list of Invitation objects based on the filters provided"),
    MethodD.mk "get_all_invitations" "get_all_invitations(id=None, ids=None, invitee=None, replytoNote=None, replyForum=None, signature=None, note=None, regex=None, tags=None, minduedate=None, duedate=None, pastdue=None, replyto=None, details=None, expired=None, sort=None, type=None, with_count=None)" (some "Gets list of Invitation objects based on the filters provided"),
    MethodD.mk "get_notes" "get_notes(id=None, paperhash=None, forum=None, invitation=None, replyto=None, tauthor=None, signature=None, writer=None, trash=None, number=None, content=None, limit=None, offset=None, mintcdate=None, details=None, sort=None, with_count=None)" (some "Gets list of Note objects based on the filters provided"),
    MethodD.mk "get_all_notes" "get_all_notes(id=None, paperhash=None, forum=None, invitation=None, replyto=None, tauthor=None, signature=None, writer=None, trash=None, number=None, content=None, mintcdate=None, details=None, sort=None, with_count=None)" (some "Gets list of Note objects based on the filters provided"),
    MethodD.mk "post_tag" "post_tag(tag)" (some "Posts the tag"),
    MethodD.mk "post_tags" "post_tags(tags)" (some "Posts the list of Tags"),
    MethodD.mk "get_tags" "get_tags(id=None, invitation=None, forum=None, signature=None, tag=None, limit=None, offset=None, with_count=None)" (some "Gets a list of Tag objects based on the filters provided"),
    MethodD.mk "get_all_tags" "get_all_tags(id=None, invitation=None, forum=None, signature=None, tag=None, limit=None, offset=None, with_count=None)" (some "Gets a list of Tag objects based on the filters provided"),
    MethodD.mk "get_edges" "get_edges(id=None, invitation=None, head=None, tail=None, label=None, limit=None, offset=None, with_count=None, trash=None)" (some "Returns a list of Edge objects based on the filters provided"),
    MethodD.mk "get_all_edges" "get_all_edges(id=None, invitation=None, head=None, tail=None, label=None, limit=None, offset=None, with_count=None, trash=None)" (some "Returns a list of Edge objects based on the filters provided"),
    MethodD.mk "get_edges_count" "get_edges_count(id=None, invitation=None, head=None, tail=None, label=None)" (some "Returns edge count based on the filters provided"),
    MethodD.mk "get_grouped_edges" "get_grouped_edges(invitation=None, head=None, tail=None, label=None, groupby=\x27head\x27, select=None, limit=None, offset=None)" (some "Returns a list of JSON objects where each one represents a group of edges"),
    MethodD.mk "get_archived_edges" "get_archived_edges(invitation)" (some "Returns a list of Edge objects based on the filters provided"),
    MethodD.mk "post_edge" "post_edge(edge)" (some "Posts the edge"),
    MethodD.mk "post_edges" "post_edges(edges)" (some "Posts the list of Edges"),
    MethodD.mk "delete_edges" "delete_edges(invitation, label=None, head=None, tail=None, wait_to_finish=False)" (some "Deletes edges by a combination of invitation id and optional filters"),
    MethodD.mk "delete_tags" "delete_tags(invitation, tag=None, wait_to_finish=False)" (some "Deletes tags by a combination of invitation id and optional filters"),
    MethodD.mk "delete_note" "delete_note(note_id)" (some "Deletes the note"),
    MethodD.mk "delete_profile_reference" "delete_profile_reference(reference_id)" (some "Deletes the Profile Reference specified by reference_id"),
    MethodD.mk "delete_group" "delete_group(group_id)" (some "Deletes the group"),
    MethodD.mk "post_message" "post_message(subject, recipients, message, invitation=None, signature=None, ignoreRecipients=None, sender=None, replyTo=None, parentGroup=None)" (some "Posts a message to the recipients and consequently sends them emails"),
    MethodD.mk "add_members_to_group" "add_members_to_group(group, members)" (some "Adds members to a group"),
    MethodD.mk "remove_members_from_group" "remove_members_from_group(group, members)" (some "Removes members from a group"),
    MethodD.mk "search_notes" "search_notes(term, content=\x27all\x27, group=\x27all\x27, source=\x27all\x27, limit=None, offset=None)" (some "Searches notes based on term, content, group and source as the criteria"),
    MethodD.mk "get_notes_by_ids" "get_notes_by_ids(ids)" (some "Get notes by their IDs"),
    MethodD.mk "get_messages" "get_messages(to=None, subject=None, status=None, offset=None, limit=None)" (some "Retrieves all the messages sent to a list of usernames or emails"),
    MethodD.mk "get_process_logs" "get_process_logs(id=None, invitation=None, status=None)" (some "Retrieves the logs of the process function executed by an Invitation")]),
  ClassD.mk "OpenReviewClient" "OpenReviewClient for API interactions.\n            \n            :param baseurl: URL to the host, example: https://api2.openreview.net (should be replaced by \x27host\x27 name). If none is provided, it defaults to the environment variable \x60OPENREVIEW_API_BASEURL_V2\x60\n            :type baseurl: str, optional\n            :param username: OpenReview username. If none is provided, it defaults to the environment variable \x60OPENREVIEW_USERNAME\x60\n            :type username: str, optional\n            :param password: OpenReview password. If none is provided, it defaults to the environment variable \x60OPENREVIEW_PASSWORD\x60\n            :type password: str, optional\n            :param token: Session token. This token can be provided instead of the username and password if the user had already logged in\n            :type token: str, optional\n            :param expiresIn: Time in seconds before the token expires. If none is set the value will be set automatically to one hour. The max value that it can be set to is 1 week.\n            :type expiresIn: number, optional\n            " "openreview.api" (some [
    MethodD.mk "__init__" "__init__(baseurl=None, username=None, password=None, token=None, tokenExpiresIn=None)" (some "Initialize the OpenReview client"),
    MethodD.mk "login_user" "login_user(username=None, password=None, expiresIn=None)" (some "Logs in a registered user"),
    MethodD.mk "register_user" "register_user(email=None, fullname=None, password=None)" (some "Registers a new user"),
    MethodD.mk "activate_user" "activate_user(token, content)" (some "Activates a newly registered user"),
    MethodD.mk "impersonate" "impersonate(group_id)" (some "Impersonate a group"),
    MethodD.mk "confirm_alternate_email" "confirm_alternate_email(profile_id, alternate_email, activation_token=None)" (some "Confirms an alternate email address"),
    MethodD.mk "activate_email_with_token" "activate_email_with_token(email, token, activation_token=None)" (some "Activates an email address"),
    MethodD.mk "get_activatable" "get_activatable(token=None)" (some "Get activatable user with token"),
    MethodD.mk "get_group" "get_group(id, details=None)" (some "Get a single Group by id if available"),
    MethodD.mk "get_groups" "get_groups(id=None, prefix=None, member=None, members=None, signatory=None, web=None, limit=None, offset=None, after=None, stream=None, sort=None, with_count=None)" (some "Gets list of Group objects based on the filters provided. The Groups that will be returned match all the criteria passed in the parameters."),
    MethodD.mk "get_all_groups" "get_all_groups(id=None, parent=None, prefix=None, member=None, members=None, domain=None, signatory=None, web=None, sort=None, with_count=None)" (some "Gets list of Group objects based on the filters provided. The Groups that will be returned match all the criteria passed in the parameters."),
    MethodD.mk "post_group_edit" "post_group_edit(invitation, signatures=None, group=None, readers=None, writers=None, content=None, replacement=None, await_process=False, flush_members_cache=True)" (some "Posts a group edit"),
    MethodD.mk "get_group_edit" "get_group_edit(id)" (some "Get a single group edit by id if available"),
    MethodD.mk "get_group_edits" "get_group_edits(group_id=None, invitation=None, with_count=False, sort=None, trash=None)" (some "Gets a list of edits for a group. The edits that will be returned match all the criteria passed in the parameters."),
    MethodD.mk "add_members_to_group" "add_members_to_group(group, members)" (some "Adds members to a group"),
    MethodD.mk "remove_members_from_group" "remove_members_from_group(group, members)" (some "Removes members from a group"),
    MethodD.mk "delete_group" "delete_group(group_id)" (some "Deletes the group"),
    MethodD.mk "flush_members_cache" "flush_members_cache(group_id=None)" (some "Flushes the members cache for a group"),
    MethodD.mk "get_invitation" "get_invitation(id)" (some "Get a single invitation by id if available"),
    MethodD.mk "get_invitations" "get_invitations(id=None, ids=None, invitee=None, replytoNote=None, replyForum=None, signature=None, note=None, prefix=None, tags=None, limit=None, offset=None, after=None, minduedate=None, duedate=None, pastdue=None, replyto=None, details=None, expired=None, sort=None, type=None, with_count=None, invitation=None, trash=None)" (some "Gets list of Invitation objects based on the filters provided. The Invitations that will be returned match all the criteria passed in the parameters."),
    MethodD.mk "get_all_invitations" "get_all_invitations(id=None, ids=None, invitee=None, replytoNote=None, replyForum=None, signature=None, note=None, prefix=None, tags=None, minduedate=None, duedate=None, pastdue=None, replyto=None, details=None, expired=None, sort=None, type=None, with_count=None, invitation=None, trash=None)" (some "Gets list of Invitation objects based on the filters provided. The Invitations that will be returned match all the criteria passed in the parameters."),
    MethodD.mk "post_invitation_edit" "post_invitation_edit(invitations, readers=None, writers=None, signatures=None, invitation=None, content=None, replacement=None, domain=None, await_process=False)" (some "Posts an invitation edit"),
    MethodD.mk "get_invitation_edit" "get_invitation_edit(id)" (some "Get a single invitation edit by id if available"),
    MethodD.mk "get_invitation_edits" "get_invitation_edits(invitation_id=None, invitation=None, with_count=None, sort=None)" (some "Gets a list of edits for an invitation. The edits that will be returned match all the criteria passed in the parameters."),
    MethodD.mk "get_invitation_date_process_job" "get_invitation_date_process_job(job_id)" (some "Get date process job for an invitation"),
    MethodD.mk "reschedule_date_process_jobs" "reschedule_date_process_jobs(invitation_id)" (some "Reschedule date process jobs for an invitation"),
    MethodD.mk "get_note" "get_note(id, details=None)" (some "Get a single Note by id if available"),
    MethodD.mk "get_notes" "get_notes(id=None, paperhash=None, forum=None, invitation=None, parent_invitations=None, replyto=None, tauthor=None, signature=None, transitive_members=None, signatures=None, writer=None, trash=None, number=None, content=None, limit=None, offset=None, after=None, mintcdate=None, domain=None, details=None, sort=None, with_count=None, stream=None)" (some "Gets list of Note objects based on the filters provided. The Notes that will be returned match all the criteria passed in the parameters."),
    MethodD.mk "get_all_notes" "get_all_notes(id=None, paperhash=None, forum=None, invitation=None, replyto=None, signature=None, transitive_members=None, signatures=None, writer=None, trash=None, number=None, content=None, mintcdate=None, details=None, select=None, sort=None, with_count=None)" (some "Gets list of Note objects based on the filters provided. The Notes that will be returned match all the criteria passed in the parameters."),
    MethodD.mk "post_note_edit" "post_note_edit(invitation, signatures, note=None, readers=None, writers=None, nonreaders=None, content=None, await_process=False)" (some "Posts a note edit"),
    MethodD.mk "get_note_edit" "get_note_edit(id, trash=None)" (some "Get a single note edit by id if available"),
    MethodD.mk "get_note_edits" "get_note_edits(note_id=None, invitation=None, with_count=None, sort=None, trash=None, limit=None)" (some "Gets a list of edits for a note. The edits that will be returned match all the criteria passed in the parameters."),
    MethodD.mk "search_notes" "search_notes(term, content=\x27all\x27, group=\x27all\x27, source=\x27all\x27, limit=None, offset=None)" (some "Searches notes based on term, content, group and source as the criteria. Unlike get_notes, this method uses Elasticsearch to retrieve the Notes"),
    MethodD.mk "get_notes_by_ids" "get_notes_by_ids(ids)" (some "Get notes by their IDs"),
    MethodD.mk "delete_note" "delete_note(note_id)" (some "Deletes the note"),
    MethodD.mk "get_tag" "get_tag(id)" (some "Get a single Tag by id if available"),
    MethodD.mk "get_tags" "get_tags(id=None, invitation=None, parent_invitations=None, forum=None, profile=None, signature=None, tag=None, limit=None, offset=None, with_count=None, mintmdate=None, stream=None)" (some "Gets a list of Tag objects based on the filters provided. The Tags that will be returned match all the criteria passed in the parameters."),
    MethodD.mk "get_all_tags" "get_all_tags(id=None, invitation=None, parent_invitations=None, forum=None, profile=None, signature=None, tag=None, limit=None, offset=None, with_count=None)" (some "Gets a list of Tag objects based on the filters provided. The Tags that will be returned match all the criteria passed in the parameters."),
    MethodD.mk "post_tag" "post_tag(tag)" (some "Posts the tag."),
    MethodD.mk "post_tags" "post_tags(tags)" (some "Posts the list of Tags. Returns a list Tag objects updated with their ids."),
    MethodD.mk "rename_tags" "rename_tags(current_id, new_id)" (some "Updates a Tag"),
    MethodD.mk "delete_tags" "delete_tags(invitation, id=None, label=None, wait_to_finish=False, soft_delete=False)" (some "Deletes tags by a combination of invitation id and one or more of the optional filters."),
    MethodD.mk "get_edge" "get_edge(id, trash=False)" (some "Get a single Edge by id if available"),
    MethodD.mk "get_edges" "get_edges(id=None, invitation=None, head=None, tail=None, label=None, limit=None, offset=None, with_count=None, trash=None)" (some "Returns a list of Edge objects based on the filters provided."),
    MethodD.mk "get_all_edges" "get_all_edges(id=None, invitation=None, head=None, tail=None, label=None, limit=None, offset=None, with_count=None, trash=None)" (some "Returns a list of Edge objects based on the filters provided."),
    MethodD.mk "get_edges_count" "get_edges_count(id=None, invitation=None, head=None, tail=None, label=None, domain=None)" (some "Returns a list of Edge objects based on the filters provided."),
    MethodD.mk "get_grouped_edges" "get_grouped_edges(invitation=None, head=None, tail=None, label=None, groupby=\x27head\x27, select=None, limit=None, offset=None, trash=None)" (some "Returns a list of JSON objects where each one represents a group of edges."),
    MethodD.mk "get_archived_edges" "get_archived_edges(invitation)" (some "Returns a list of Edge objects based on the filters provided."),
    MethodD.mk "post_edge" "post_edge(edge)" (some "Posts the edge. Upon success, returns the posted Edge object."),
    MethodD.mk "post_edges" "post_edges(edges)" (some "Posts the list of Edges. Returns a list Edge objects updated with their ids."),
    MethodD.mk "rename_edges" "rename_edges(current_id, new_id)" (some "Updates an Edge"),
    MethodD.mk "delete_edges" "delete_edges(invitation, id=None, label=None, head=None, tail=None, wait_to_finish=False, soft_delete=False)" (some "Deletes edges by a combination of invitation id and one or more of the optional filters."),
    MethodD.mk "get_profile" "get_profile(email_or_id=None)" (some "Get a single Profile by id, if available"),
    MethodD.mk "get_profiles" "get_profiles(id=None, trash=None, with_blocked=None, offset=None, limit=None, sort=None)" (some "Get a list of Profiles"),
    MethodD.mk "search_profiles" "search_profiles(confirmedEmails=None, emails=None, ids=None, term=None, first=None, middle=None, last=None, fullname=None, relation=None, use_ES=False)" (some "Gets a list of profiles using either their ids or corresponding emails"),
    MethodD.mk "post_profile" "post_profile(profile)" (some "Updates a Profile"),
    MethodD.mk "rename_profile" "rename_profile(current_id, new_id)" (some "Updates a the profile id of a Profile"),
    MethodD.mk "merge_profiles" "merge_profiles(profileTo, profileFrom)" (some "Merges two Profiles"),
    MethodD.mk "moderate_profile" "moderate_profile(profile_id, decision)" (some "Updates a Profile"),
    MethodD.mk "delete_profile_reference" "delete_profile_reference(reference_id)" (some "Deletes the Profile Reference specified by reference_id."),
    MethodD.mk "update_relation_readers" "update_relation_readers(update)" (some "Updates the relation readers available in the profile. This is an admin method."),
    MethodD.mk "post_message" "post_message(subject, recipients, message, invitation=None, signature=None, ignoreRecipients=None, sender=None, replyTo=None, parentGroup=None, use_job=None)" (some "Posts a message to the recipients and consequently sends them emails"),
    MethodD.mk "post_message_request" "post_message_request(subject, recipients, message, invitation=None, signature=None, ignoreRecipients=None, sender=None, replyTo=None, parentGroup=None, use_job=None)" (some "Posts a message to the recipients and consequently sends them emails"),
    MethodD.mk "get_message_requests" "get_message_requests(id=None, invitation=None)" (some "Gets message requests"),
    MethodD.mk "post_direct_message" "post_direct_message(subject, recipients, message, sender=None)" (some "Posts a message to the recipients and consequently sends them emails"),
    MethodD.mk "get_messages" "get_messages(to=None, subject=None, status=None, offset=None, limit=None)" (some "**Only for Super User**. Retrieves all the messages sent to a list of usernames or emails and/or a particular e-mail subject"),
    MethodD.mk "get_pdf" "get_pdf(id, is_reference=False)" (some "Gets the binary content of a pdf using the provided note/reference id"),
    MethodD.mk "get_attachment" "get_attachment(field_name, id=None, ids=None, group_id=None, invitation_id=None)" (some "Gets the binary content of a attachment using the provided note id"),
    MethodD.mk "put_attachment" "put_attachment(file_path, invitation, name)" (some "Uploads a file to the openreview server"),
    MethodD.mk "get_venues" "get_venues(id=None, ids=None, invitations=None)" (some "Gets list of Note objects based on the filters provided. The Notes that will be returned match all the criteria passed in the parameters."),
    MethodD.mk "post_venue" "post_venue(venue)" (some "Posts the venue. Upon success, returns the posted Venue object."),
    MethodD.mk "rename_venue" "rename_venue(old_venue_id, new_venue_id, request_form=None, additional_renames=None)" (some "Updates the domain for an entire venue"),
    MethodD.mk "rename_domain" "rename_domain(old_domain, new_domain, request_form, additional_renames=None)" (some "Updates the domain for an entire venue"),
    MethodD.mk "get_institutions" "get_institutions(id=None, domain=None)" (some "Get a single Institution by id or domain if available"),
    MethodD.mk "post_institution" "post_institution(institution)" (some "Requires Super User permission. Adds an institution if the institution id is not found in the database, otherwise, the institution is updated."),
    MethodD.mk "delete_institution" "delete_institution(institution_id)" (some "Deletes the institution"),
    MethodD.mk "get_tildeusername" "get_tildeusername(fullname)" (some "Gets next possible tilde user name corresponding to the specified full name"),
    MethodD.mk "get_process_logs" "get_process_logs(id=None, invitation=None, status=None, min_sdate=None)" (some "**Only for Super User**. Retrieves the logs of the process function executed by an Invitation"),
    MethodD.mk "get_jobs_status" "get_jobs_status()" (some "**Only for Super User**. Retrieves the jobs status of the queue"),
    MethodD.mk "post_edit" "post_edit(edit)" (some "Posts an edit"),
    MethodD.mk "request_expertise" "request_expertise(name, group_id, venue_id, submission_content=None, alternate_match_group=None, expertise_selection_id=None, model=None, baseurl=None, weight=None, top_recent_pubs=None)" (some "Request expertise computation"),
    MethodD.mk "request_single_paper_expertise" "request_single_paper_expertise(name, group_id, paper_id, expertise_selection_id=None, model=None, baseurl=None)" (some "Request expertise computation for a single paper"),
    MethodD.mk "request_paper_similarity" "request_paper_similarity(name, venue_id=None, alternate_venue_id=None, invitation=None, alternate_invitation=None, model=\x27specter2+scincl\x27, baseurl=None)" (some "Call to the Expertise API to compute paper-to-paper similarity scores. This can be between 2 different venues or between submissions of the same venue."),
    MethodD.mk "request_paper_subset_expertise" "request_paper_subset_expertise(name, submissions, group_id, expertise_selection_id=None, model=\x27specter2+scincl\x27, weight=None, baseurl=None)" (some "Call to the Expertise API to compute scores for a subset of papers to a group."),
    MethodD.mk "request_user_subset_expertise" "request_user_subset_expertise(name, members, expertise_selection_id=None, venue_id=None, invitation=None, model=\x27specter2+scincl\x27, weight=None, baseurl=None)" (some "Call to the Expertise API to compute scores for a subset of users to papers."),
    MethodD.mk "get_expertise_status" "get_expertise_status(job_id=None, group_id=None, paper_id=None, baseurl=None)" (some "Get expertise computation status"),
    MethodD.mk "get_expertise_jobs" "get_expertise_jobs(status=None, baseurl=None)" (some "Get expertise jobs"),
    MethodD.mk "get_expertise_results" "get_expertise_results(job_id, baseurl=None, wait_for_complete=False)" (some "Get expertise computation results")]),
  ClassD.mk "Invitation" "Represents an invitation in OpenReview.\n\n    :param id: Invitation id\n    :type id: str, optional\n    :param invitations: Invitation ids that apply to this Invitation\n    :type invitations: list[str], optional\n    :param parent_invitations: Parent invitation ids\n    :type parent_invitations: list[str], optional\n    :param domain: Domain for the Invitation\n    :type domain: str, optional\n    :param readers: List of readers in the Invitation, each reader is a Group id\n    :type readers: list[str], optional\n    :param writers: List of writers in the Invitation, each writer is a Group id\n    :type writers: list[str], optional\n    :param invitees: List of invitees in the Invitation, each invitee is a Group id\n    :type invitees: list[str], optional\n    :param signatures: List of signatures in the Invitation, each signature is a Group id\n    :type signatures: list[str], optional\n    :param edit: Edit template configuration\n    :type edit: dict, optional\n    :param edge: Edge template configuration (type=\x27Edge\x27)\n    :type edge: dict, optional\n    :param tag: Tag template configuration (type=\x27Tag\x27)\n    :type tag: dict, optional\n    :param message: Message template configuration (type=\x27Message\x27)\n    :type message: dict, optional\n    :param type: Type of invitation (Note, Edge, Tag, or Message)\n    :type type: str, default=\x27Note\x27\n    :param noninvitees: List of noninvitees in the Invitation, each noninvitee is a Group id\n    :type noninvitees: list[str], optional\n    :param nonreaders: List of nonreaders in the Invitation, each nonreader is a Group id\n    :type nonreaders: list[str], optional\n    :param web: Web interface configuration\n    :type web: str, optional\n    :param process: Process function\n    :type process: str, optional\n    :param preprocess: Preprocess function\n    :type preprocess: str, optional\n    :param date_processes: Date-based process functions\n    :type date_processes: list, optional\n    :param post_processes: Post-process functions\n    :type post_processes: list, optional\n    :param duedate: Due date timestamp\n    :type duedate: int, optional\n    :param expdate: Expiration date timestamp\n    :type expdate: int, optional\n    :param cdate: Creation date timestamp\n    :type cdate: int, optional\n    :param ddate: Deletion date timestamp\n    :type ddate: int, optional\n    :param tcdate: True creation date timestamp\n    :type tcdate: int, optional\n    :param tmdate: True modification date timestamp\n    :type tmdate: int, optional\n    :param minReplies: Minimum number of replies\n    :type minReplies: int, optional\n    :param maxReplies: Maximum number of replies\n    :type maxReplies: int, optional\n    :param bulk: Bulk operation flag\n    :type bulk: bool, optional\n    :param content: Content schema/configuration\n    :type content: dict, optional\n    :param reply_forum_views: Reply forum views configuration\n    :type reply_forum_views: list, default=[]\n    :param responseArchiveDate: Response archive date timestamp\n    :type responseArchiveDate: int, optional\n    :param details: Additional details\n    :type details: dict, optional\n    :param description: Description text\n    :type description: str, optional\n    :param instructions: Instructions text\n    :type instructions: str, optional" "openreview.api" (some [
    MethodD.mk "__init__" "__init__(id=None, invitations=None, parent_invitations=None, domain=None, readers=None, writers=None, invitees=None, signatures=None, edit=None, edge=None, tag=None, message=None, type=\x27Note\x27, noninvitees=None, nonreaders=None, web=None, process=None, preprocess=None, date_processes=None, post_processes=None, duedate=None, expdate=None, cdate=None, ddate=None, tcdate=None, tmdate=None, minReplies=None, maxReplies=None, bulk=None, content=None, reply_forum_views=[], responseArchiveDate=None, details=None, description=None, instructions=None)" (some "Initialize an Invitation object"),
    MethodD.mk "to_json" "to_json()" (some "Converts Invitation instance to a dictionary. The instance variable names are the keys and their values the values of the dictionary."),
    MethodD.mk "from_json" "from_json(i)" (some "Creates an Invitation object from a dictionary that contains keys values equivalent to the name of the instance variables of the Invitation class"),
    MethodD.mk "is_active" "is_active()" (some "Check if the invitation is currently active (based on cdate, expdate, and current time)"),
    MethodD.mk "get_content_value" "get_content_value(field_name, default_value=None)" (some "Get a content field value by name, with optional default value"),
    MethodD.mk "pretty_id" "pretty_id()" (some "Returns a formatted version of the invitation ID")]),
  ClassD.mk "Note" "Represents a note in OpenReview.\n\n    :param invitations: Invitation ids that apply to this Note\n    :type invitations: list[str], optional\n    :param parent_invitations: Parent invitation ids\n    :type parent_invitations: list[str], optional\n    :param readers: List of readers in the Note, each reader is a Group id\n    :type readers: list[str], optional\n    :param writers: List of writers in the Note, each writer is a Group id\n    :type writers: list[str], optional\n    :param signatures: List of signatures in the Note, each signature is a Group id\n    :type signatures: list[str], optional\n    :param content: Content of the Note\n    :type content: dict, optional\n    :param id: Note id\n    :type id: str, optional\n    :param number: Note number\n    :type number: int, optional\n    :param cdate: Creation date\n    :type cdate: int, optional\n    :param pdate: Publication date\n    :type pdate: int, optional\n    :param odate: Original date\n    :type odate: int, optional\n    :param mdate: Modification date\n    :type mdate: int, optional\n    :param tcdate: True creation date\n    :type tcdate: int, optional\n    :param tmdate: True modification date\n    :type tmdate: int, optional\n    :param ddate: Deletion date\n    :type ddate: int, optional\n    :param forum: Forum id\n    :type forum: str, optional\n    :param replyto: Reply to note id\n    :type replyto: str, optional\n    :param nonreaders: List of nonreaders in the Note, each nonreader is a Group id\n    :type nonreaders: list[str], optional\n    :param domain: Domain for the Note\n    :type domain: str, optional\n    :param details: Additional details\n    :type details: dict, optional\n    :param license: License information\n    :type license: str, optional" "openreview.api" (some [
    MethodD.mk "__init__" "__init__(invitations=None, parent_invitations=None, readers=None, writers=None, signatures=None, content=None, id=None, number=None, cdate=None, pdate=None, odate=None, mdate=None, tcdate=None, tmdate=None, ddate=None, forum=None, replyto=None, nonreaders=None, domain=None, details=None, license=None)" (some "Initialize a Note object"),
    MethodD.mk "to_json" "to_json()" (some "Converts Note instance to a dictionary. The instance variable names are the keys and their values the values of the dictionary."),
    MethodD.mk "from_json" "from_json(n)" (some "Creates a Note object from a dictionary that contains keys values equivalent to the name of the instance variables of the Note class")]),
  ClassD.mk "Group" "When a user is created, it is automatically assigned to certain groups that give him different privileges. A username is also a group, therefore, groups can be members of other groups.\n\n    :param id: id of the Group\n    :type id: str, optional\n    :param content: Content of the Group\n    :type content: dict, optional\n    :param readers: List of readers in the Group, each reader is a Group id\n    :type readers: list[str], optional\n    :param writers: List of writers in the Group, each writer is a Group id\n    :type writers: list[str], optional\n    :param signatories: List of signatories in the Group, each signatory is a Group id\n    :type signatories: list[str], optional\n    :param signatures: List of signatures in the Group, each signature is a Group id\n    :type signatures: list[str], optional\n    :param invitation: Invitation id for this Group\n    :type invitation: str, optional\n    :param invitations: Invitation ids that apply to this Group\n    :type invitations: list[str], optional\n    :param parent_invitations: Parent invitation ids\n    :type parent_invitations: list[str], optional\n    :param cdate: Creation date of the Group\n    :type cdate: int, optional\n    :param ddate: Deletion date of the Group\n    :type ddate: int, optional\n    :param tcdate: True creation date of the Group\n    :type tcdate: int, optional\n    :param tmdate: True modification date of the Group\n    :type tmdate: int, optional\n    :param members: List of members in the Group, each member is a Group id\n    :type members: list[str], optional\n    :param nonreaders: List of nonreaders in the Group, each nonreader is a Group id\n    :type nonreaders: list[str], optional\n    :param impersonators: List of impersonators who can impersonate this Group\n    :type impersonators: list[str], optional\n    :param web: Webfield configuration for the Group\n    :type web: str, optional\n    :param anonids: Anonymous ids configuration\n    :type anonids: bool, optional\n    :param deanonymizers: List of deanonymizers who can reveal anonymous identities\n    :type deanonymizers: list[str], optional\n    :param host: Host URL for the Group\n    :type host: str, optional\n    :param domain: Domain for the Group\n    :type domain: str, optional\n    :param parent: Parent group id\n    :type parent: str, optional\n    :param details: Additional details\n    :type details: dict, optional\n    :param description: Description text\n    :type description: str, optional" "openreview.api" (some [
    MethodD.mk "__init__" "__init__(id=None, content=None, readers=None, writers=None, signatories=None, signatures=None, invitation=None, invitations=None, parent_invitations=None, cdate=None, ddate=None, tcdate=None, tmdate=None, members=None, nonreaders=None, impersonators=None, web=None, anonids=None, deanonymizers=None, host=None, domain=None, parent=None, details=None, description=None)" (some "Initialize a Group object"),
    MethodD.mk "get_content_value" "get_content_value(field_name, default_value=None)" (some "Get a content field value by name, with optional default value"),
    MethodD.mk "to_json" "to_json()" (some "Converts Group instance to a dictionary. The instance variable names are the keys and their values the values of the dictionary."),
    MethodD.mk "from_json" "from_json(g)" (some "Creates a Group object from a dictionary that contains keys values equivalent to the name of the instance variables of the Group class"),
    MethodD.mk "add_member" "add_member(member)" (some "Adds a member to the group. This is done only on the object not in OpenReview. Another method like post() is needed for the change to show in OpenReview"),
    MethodD.mk "remove_member" "remove_member(member)" (some "Removes a member from the group. This is done only on the object not in OpenReview. Another method like post() is needed for the change to show in OpenReview"),
    MethodD.mk "add_webfield" "add_webfield(web)" (some "Adds a webfield to the group by reading from a file path"),
    MethodD.mk "post" "post(client)" (some "Posts the group to OpenReview using the provided client"),
    MethodD.mk "transform_to_anon_ids" "transform_to_anon_ids(elements)" (some "Transforms member ids to anonymous ids if anonids is enabled")]),
  ClassD.mk "Edge" "Represents an edge between entities in OpenReview.\n\n    An Edge represents a directed relationship between two entities (head and tail).\n    Commonly used for assignments, conflicts, recommendations, and other relationships.\n\n    :param head: Head of the edge (source entity id)\n    :type head: str, required\n    :param tail: Tail of the edge (target entity id)\n    :type tail: str, required\n    :param invitation: Invitation id for this edge\n    :type invitation: str, required\n    :param domain: Domain for the Edge\n    :type domain: str, optional\n    :param readers: List of readers, each reader is a Group id\n    :type readers: list[str], optional\n    :param writers: List of writers, each writer is a Group id\n    :type writers: list[str], optional\n    :param signatures: List of signatures, each signature is a Group id\n    :type signatures: list[str], optional\n    :param id: Edge id\n    :type id: str, optional\n    :param weight: Weight value for the edge (e.g., score, confidence)\n    :type weight: float, optional\n    :param label: Label for the edge\n    :type label: str, optional\n    :param cdate: Creation date timestamp\n    :type cdate: int, optional\n    :param ddate: Deletion date timestamp\n    :type ddate: int, optional\n    :param nonreaders: List of nonreaders, each nonreader is a Group id\n    :type nonreaders: list[str], optional\n    :param tcdate: True creation date timestamp\n    :type tcdate: int, optional\n    :param tmdate: True modification date timestamp\n    :type tmdate: int, optional\n    :param tddate: True deletion date timestamp\n    :type tddate: int, optional\n    :param tauthor: True author\n    :type tauthor: str, optional" "openreview.api" (some [
    MethodD.mk "__init__" "__init__(head, tail, invitation, domain=None, readers=None, writers=None, signatures=None, id=None, weight=None, label=None, cdate=None, ddate=None, nonreaders=None, tcdate=None, tmdate=None, tddate=None, tauthor=None)" (some "Initialize an Edge object with required head, tail, and invitation parameters"),
    MethodD.mk "to_json" "to_json()" (some "Converts Edge instance to a dictionary containing the edge parameters"),
    MethodD.mk "from_json" "from_json(e)" (some "Creates an Edge object from a dictionary that contains keys values equivalent to the name of the instance variables of the Edge class")]),
  ClassD.mk "Tag" "Represents a tag in OpenReview.\n\n    Tags are used to annotate notes with metadata like decisions, ratings, or custom labels.\n\n    :param invitation: Invitation id (required)\n    :type invitation: str, required\n    :param signature: Signature, typically a Group id\n    :type signature: str, optional\n    :param tag: Content of the tag\n    :type tag: str, optional\n    :param readers: List of readers, each reader is a Group id\n    :type readers: list[str], optional\n    :param writers: List of writers, each writer is a Group id\n    :type writers: list[str], optional\n    :param id: Tag id\n    :type id: str, optional\n    :param parent_invitations: Parent invitation ids\n    :type parent_invitations: list[str], optional\n    :param cdate: Creation date timestamp\n    :type cdate: int, optional\n    :param tcdate: True creation date timestamp\n    :type tcdate: int, optional\n    :param tmdate: True modification date timestamp\n    :type tmdate: int, optional\n    :param ddate: Deletion date timestamp\n    :type ddate: int, optional\n    :param forum: Forum id (typically the note being tagged)\n    :type forum: str, optional\n    :param nonreaders: List of nonreaders, each nonreader is a Group id\n    :type nonreaders: list[str], optional\n    :param profile: Profile id\n    :type profile: str, optional\n    :param weight: Weight value for the tag\n    :type weight: float, optional\n    :param label: Label for the tag\n    :type label: str, optional\n    :param note: Note id being tagged\n    :type note: str, optional" "openreview.api" (some [
    MethodD.mk "__init__" "__init__(invitation, signature=None, tag=None, readers=None, writers=None, id=None, parent_invitations=None, cdate=None, tcdate=None, tmdate=None, ddate=None, forum=None, nonreaders=None, profile=None, weight=None, label=None, note=None)" (some "Initialize a Tag object with required invitation parameter"),
    MethodD.mk "to_json" "to_json()" (some "Converts Tag instance to a dictionary. The instance variable names are the keys and their values the values of the dictionary."),
    MethodD.mk "from_json" "from_json(t)" (some "Creates a Tag object from a dictionary that contains keys values equivalent to the name of the instance variables of the Tag class")]),
  ClassD.mk "Edit" "\n    :param id: Edit id\n    :type id: str, optional\n    :param domain: Domain for the Edit\n    :type domain: str, optional\n    :param invitations: Invitation ids that apply to this Edit\n    :type invitations: list[str], optional\n    :param readers: List of readers in the Edit, each reader is a Group id\n    :type readers: list[str], optional\n    :param writers: List of writers in the Edit, each writer is a Group id\n    :type writers: list[str], optional\n    :param signatures: List of signatures in the Edit, each signature is a Group id\n    :type signatures: list[str], optional\n    :param content: Content of the Edit\n    :type content: dict, optional\n    :param note: Template of the Note that will be created\n    :type note: Note, optional\n    :param group: Template of the Group that will be created\n    :type group: Group, optional\n    :param invitation: Template of the Invitation that will be created (can be Invitation object or string)\n    :type invitation: Invitation or str, optional\n    :param nonreaders: List of nonreaders in the Edit, each nonreader is a Group id\n    :type nonreaders: list[str], optional\n    :param cdate: Creation date\n    :type cdate: int, optional\n    :param tcdate: True creation date\n    :type tcdate: int, optional\n    :param tmdate: True modification date\n    :type tmdate: int, optional\n    :param ddate: Deletion date\n    :type ddate: int, optional\n    :param tauthor: True author\n    :type tauthor: str, optional" "openreview.api" (some [
    MethodD.mk "__init__" "__init__(id=None, domain=None, invitations=None, readers=None, writers=None, signatures=None, content=None, note=None, group=None, invitation=None, nonreaders=None, cdate=None, tcdate=None, tmdate=None, ddate=None, tauthor=None)" (some "Initialize an Edit object"),
    MethodD.mk "to_json" "to_json()" (some "Converts Edit instance to a dictionary. The instance variable names are the keys and their values the values of the dictionary."),
    MethodD.mk "from_json" "from_json(e)" (some "Creates an Edit object from a dictionary that contains keys values equivalent to the name of the instance variables of the Edit class")]),
  ClassD.mk "Profile" "Represents a user profile in OpenReview.\n\n    :param id: Profile id (typically in format ~FirstName_LastName1)\n    :type id: str, optional\n    :param active: If true, the Profile is active in OpenReview\n    :type active: bool, optional\n    :param password: If true, the Profile has a password set\n    :type password: bool, optional\n    :param number: Profile number\n    :type number: int, optional\n    :param tcdate: True creation date timestamp\n    :type tcdate: int, optional\n    :param tmdate: True modification date timestamp\n    :type tmdate: int, optional\n    :param referent: If this is a reference profile, it contains the Profile id that it points to\n    :type referent: str, optional\n    :param packaging: Contains previous versions of this Profile\n    :type packaging: dict, optional\n    :param invitation: Invitation id (defaults to ~/-/profiles)\n    :type invitation: str, optional\n    :param readers: List of readers, each reader is a Group id\n    :type readers: list[str], optional\n    :param nonreaders: List of nonreaders, each nonreader is a Group id\n    :type nonreaders: list[str], optional\n    :param signatures: List of signatures, each signature is a Group id\n    :type signatures: list[str], optional\n    :param writers: List of writers, each writer is a Group id\n    :type writers: list[str], optional\n    :param content: Dictionary containing the profile information (names, emails, history, relations, expertise, etc.)\n    :type content: dict, optional\n    :param metaContent: Contains information about entities that have modified the Profile\n    :type metaContent: dict, optional\n    :param tauthor: True author\n    :type tauthor: str, optional\n    :param state: Profile state\n    :type state: str, optional" "openreview.api" (some [
    MethodD.mk "__init__" "__init__(id=None, active=None, password=None, number=None, tcdate=None, tmdate=None, referent=None, packaging=None, invitation=None, readers=None, nonreaders=None, signatures=None, writers=None, content=None, metaContent=None, tauthor=None, state=None)" (some "Initialize a Profile object"),
    MethodD.mk "get_preferred_name" "get_preferred_name(pretty=False)" (some "Get the preferred username from profile names, optionally formatted as pretty name"),
    MethodD.mk "get_preferred_email" "get_preferred_email()" (some "Get the preferred email address from profile, checking preferredEmail, emailsConfirmed, then emails"),
    MethodD.mk "to_json" "to_json()" (some "Converts Profile instance to a dictionary. The instance variable names are the keys and their values the values of the dictionary."),
    MethodD.mk "from_json" "from_json(n)" (some "Creates a Profile object from a dictionary that contains keys values equivalent to the name of the instance variables of the Profile class")]),
  ClassD.mk "Venue" "Represents a conference or workshop venue in OpenReview with comprehensive management capabilities.\n\nThe Venue class is the main orchestrator for managing academic conferences and workshops on OpenReview.\nIt handles the complete lifecycle of a venue including submissions, reviews, decisions, and committee management.\n\nINSTANTIATION EXAMPLE:\n\x60\x60\x60python\nimport openreview\nimport datetime\n\n# Initialize the client\nclient = openreview.api.OpenReviewClient(\n    baseurl=\x27https://api2.openreview.net\x27,\n    username=\x27user@example.com\x27,\n    password=\x27password\x27\n)\n\n# Create a new venue\nvenue = openreview.venue.Venue(client, \x27ICML.cc/2025/Conference\x27, support_user=\x27openreview.net/Support\x27)\nvenue.request_form_invitation = \x27openreview.net/Support/Venue_Request/-/ICML\x27\nvenue.name = \x27Thirty-ninth International Conference on Machine Learning\x27\nvenue.short_name = \x27ICML 2025\x27\nvenue.website = \x27https://icml.cc\x27\nvenue.contact = \x27contact@icml.cc\x27\nvenue.location = \x27Virtual\x27\nvenue.start_date = \x272025/07/01\x27\nvenue.use_area_chairs = True\nvenue.use_senior_area_chairs = True\nvenue.use_ethics_chairs = True\nvenue.use_publication_chairs = True\n\n# Configure submission stage\ndue_date = datetime.datetime(2025, 2, 1, 23, 59)\nvenue.submission_stage = openreview.stages.SubmissionStage(\n    start_date=None,\n    due_date=due_date,\n    double_blind=True\n)\n\n# Configure review stage\nvenue.review_stage = openreview.stages.ReviewStage(\n    start_date=due_date + datetime.timedelta(weeks=1),\n    allow_de_anonymization=False\n)\n\n# Configure meta-review stage\nvenue.meta_review_stage = openreview.stages.MetaReviewStage(\n    start_date=due_date + datetime.timedelta(weeks=2),\n    due_date=due_date + datetime.timedelta(weeks=4)\n)\n\n# Setup the venue\nvenue.setup([\x27pc@icml.cc\x27])\nvenue.create_submission_stage()\nvenue.create_review_stage()\n\x60\x60\x60\n\nKEY ATTRIBUTES:\n- venue_id: Main identifier for the venue (e.g., \x27ICML.cc/2025/Conference\x27)\n- name: Full official name of the venue\n- short_name: Abbreviated name displayed in the UI\n- website: Conference website URL\n- contact: Contact email for venue communications\n- start_date: Venue start date (format: \x27YYYY/MM/DD\x27)\n\nCOMMITTEE STRUCTURE:\n- Program Chairs: Overall conference organizers\n- Senior Area Chairs: Supervise area chairs (optional)\n- Area Chairs: Manage reviewers and make meta-review recommendations (optional)\n- Reviewers: Write reviews for submissions\n- Ethics Chairs/Reviewers: Handle ethics reviews for flagged submissions (optional)\n- Publication Chairs: Manage camera-ready submissions (optional)\n- Authors: Paper submitters\n\nWORKFLOW STAGES:\nThe venue workflow consists of multiple stages that can be configured and activated:\n\n1. Submission Stage (submission_stage):\n   - Handles paper submissions\n   - Supports blind/double-blind configurations\n   - Allows multiple deadlines (first deadline + full submission deadline)\n   - Manages withdrawal and desk rejection processes\n\n2. Expertise Selection Stage (expertise_selection_stage):\n   - Committee members select papers they have expertise in\n   - Used to inform automated assignment\n\n3. Bid Stage (bid_stages):\n   - Committee members bid on papers they want to review\n   - Multiple bid stages can be configured for different committees\n\n4. Assignment/Matching:\n   - Automated or manual reviewer assignments\n   - Conflict detection and management\n   - Affinity score computation for optimal matching\n\n5. Review Stage (review_stage):\n   - Reviewers write and submit reviews\n   - Configurable anonymity and visibility settings\n   - Optional review rebuttal stage\n\n6. Review Rebuttal Stage (review_rebuttal_stage):\n   - Authors respond to reviews\n   - Time-limited response period\n\n7. Ethics Review Stage (ethics_review_stage):\n   - Special review process for flagged submissions\n   - Optional ethics committee involvement\n\n8. Meta-Review Stage (meta_review_stage):\n   - Area chairs write recommendations\n   - Synthesis of reviewer feedback\n\n9. Decision Stage (decision_stage):\n   - Program chairs make accept/reject decisions\n   - Can upload decisions in bulk via CSV\n   - Sends decision notifications\n\n10. Comment Stage (comment_stage):\n    - Public and official comments\n    - Author-reviewer discussion period\n\n11. Registration Stages (registration_stages):\n    - Camera-ready submission\n    - Copyright agreements\n    - Final materials collection\n\nKEY METHODS:\n\nSetup Methods:\n- setup(): Initialize venue groups, invitations, and committee structure. You only need to run this once.\n- set_main_settings(): Configure basic venue parameters from request form\n- create_submission_stage(): Activate the submission process\n- create_review_stage(): Enable review submissions\n- create_meta_review_stage(): Enable meta-reviews\n- create_decision_stage(): Enable decision posting\n- create_bid_stages(): Set up bidding for committees\n- create_comment_stage(): Enable commenting functionality\n\nCommittee Management:\n- recruit_reviewers(): Send recruitment emails to potential reviewers\n- setup_committee_matching(): Configure automated assignment system\n- set_assignments(): Deploy reviewer assignments\n- unset_assignments(): Remove assignments\n\nSubmission Management:\n- get_submissions(): Retrieve all submissions with optional filters\n- post_decision_stage(): Update submission visibility after decisions\n- send_decision_notifications(): Email authors with decisions\n\nMatching/Assignment:\n- setup_committee_matching(): Initialize assignment algorithms\n- set_assignments(): Deploy computed assignments\n- set_track_sac_assignments(): Assign senior area chairs to tracks\n\nStatistics:\n- compute_reviewers_stats(): Calculate reviewer metrics\n- compute_acs_stats(): Calculate area chair metrics\n\nSpecial Features:\n- iThenticate plagiarism checking integration\n- Track-based submissions with specialized workflows\n- Automated conflict-of-interest detection\n- Bulk operations support\n- Ethics review flagging and workflows\n\n:param client: OpenReview client instance (API 2)\n:type client: openreview.api.OpenReviewClient\n:param venue_id: Unique identifier for the venue (e.g., \x27Conference.org/2025\x27)\n:type venue_id: str\n:param support_user: Support user group ID (typically \x27openreview.net/Support\x27)\n:type support_user: str" "openreview.venue" (some [
    MethodD.mk "__init__" "__init__(client, venue_id, support_user)" (some "Initialize a Venue object. Sets up default configuration for all venue properties."),
    MethodD.mk "set_main_settings" "set_main_settings(request_note)" (some "Configure main venue settings from a venue request form note. Extracts venue name, dates, committee names, and reviewer settings."),
    MethodD.mk "setup" "setup(program_chair_ids=[], publication_chairs_ids=[])" (some "Initialize the venue infrastructure: create meta invitation, venue group, program chairs, reviewers, area chairs, senior area chairs, ethics committees, and publication chairs groups."),
    MethodD.mk "create_submission_stage" "create_submission_stage()" (some "Activate submission stage: create submission invitation, withdrawal/desk rejection invitations, post-submission edits, PC revisions, reviewer/AC group invitations, and optional plagiarism checking."),
    MethodD.mk "create_review_stage" "create_review_stage()" (some "Activate review stage: create review invitation for reviewers to submit reviews."),
    MethodD.mk "create_review_rebuttal_stage" "create_review_rebuttal_stage()" (some "Activate review rebuttal stage: enable authors to respond to reviews."),
    MethodD.mk "create_meta_review_stage" "create_meta_review_stage()" (some "Activate meta-review stage: create invitation for area chairs to write meta-reviews/recommendations."),
    MethodD.mk "create_decision_stage" "create_decision_stage()" (some "Activate decision stage: create decision invitation and optionally process bulk decisions from CSV file."),
    MethodD.mk "create_bid_stages" "create_bid_stages()" (some "Create bid invitations for committee members to express interest in reviewing papers."),
    MethodD.mk "create_comment_stage" "create_comment_stage()" (some "Activate commenting: create official comment invitation, optional public comments, and chat functionality."),
    MethodD.mk "create_ethics_review_stage" "create_ethics_review_stage()" (some "Activate ethics review stage: create ethics flag invitation, ethics review invitations, setup ethics reviewer matching, and flag specified submissions."),
    MethodD.mk "get_submissions" "get_submissions(venueid=None, accepted=False, sort=None, details=None)" (some "Retrieve submissions. Can filter by venueid, acceptance status, with optional sorting and detail inclusion (like direct replies)."),
    MethodD.mk "recruit_reviewers" "recruit_reviewers(title, message, invitees=[], reviewers_name=\x27Reviewers\x27, remind=False, invitee_names=[], retry_declined=False, contact_info=\x27\x27, reduced_load_on_decline=None, allow_accept_with_reduced_load=False, default_load=0, allow_overlap_official_committee=False, accept_recruitment_template=None)" (some "Send recruitment invitations to potential reviewers/committee members. Supports reminders, decline retries, and reduced load options."),
    MethodD.mk "setup_committee_matching" "setup_committee_matching(committee_id=None, compute_affinity_scores=False, compute_conflicts=False, compute_conflicts_n_years=None, alternate_matching_group=None, submission_track=None)" (some "Initialize automated assignment system for a committee. Optionally compute affinity scores, detect conflicts, and set up alternate matching groups."),
    MethodD.mk "set_assignments" "set_assignments(assignment_title, committee_id, enable_reviewer_reassignment=False, overwrite=False)" (some "Deploy computed assignments for a committee. Can enable reassignment and overwrite existing assignments."),
    MethodD.mk "unset_assignments" "unset_assignments(assignment_title, committee_id)" (some "Remove assignments for a committee based on assignment title."),
    MethodD.mk "post_decisions" "post_decisions(decisions_file, api1_client=None)" (some "Post decisions in bulk from CSV file. Format: paper_number,decision,comment. Posts decisions and updates request form status."),
    MethodD.mk "post_decision_stage" "post_decision_stage(reveal_all_authors=False, reveal_authors_accepted=False, decision_heading_map=None, submission_readers=None, hide_fields=[])" (some "Update submission visibility after decisions: set venue IDs, update readers, hide/reveal author information, generate bibtex."),
    MethodD.mk "send_decision_notifications" "send_decision_notifications(decision_options, messages)" (some "Send decision notification emails to authors with customized messages per decision type."),
    MethodD.mk "set_track_sac_assignments" "set_track_sac_assignments(track_sac_file, conflict_policy=None, conflict_n_years=None, track_ac_file=None)" (some "Assign senior area chairs to tracks from CSV. Optionally assign area chairs to SACs. Performs conflict checking."),
    MethodD.mk "compute_reviewers_stats" "compute_reviewers_stats()" (some "Calculate reviewer statistics: assignment count, review count, late days, discussion replies. Posts as tags."),
    MethodD.mk "compute_acs_stats" "compute_acs_stats()" (some "Calculate area chair statistics: assignment count, meta-review count, late days, discussion replies. Posts as tags."),
    MethodD.mk "get_committee_names" "get_committee_names()" (some "Get list of committee names based on venue configuration (reviewers, ACs, SACs)."),
    MethodD.mk "get_roles" "get_roles()" (some "Get all configured committee roles including ethics chairs and reviewers."),
    MethodD.mk "get_submission_id" "get_submission_id()" (some "Get the submission invitation ID."),
    MethodD.mk "get_reviewers_id" "get_reviewers_id(number=None, anon=False, submitted=False)" (some "Get reviewer group ID. Can get paper-specific, anonymous, or submitted reviewers group."),
    MethodD.mk "get_area_chairs_id" "get_area_chairs_id(number=None, anon=False)" (some "Get area chair group ID. Can get paper-specific or anonymous AC group."),
    MethodD.mk "get_senior_area_chairs_id" "get_senior_area_chairs_id(number=None)" (some "Get senior area chair group ID. Can get paper-specific SAC group."),
    MethodD.mk "get_program_chairs_id" "get_program_chairs_id()" (some "Get program chairs group ID."),
    MethodD.mk "get_authors_id" "get_authors_id(number=None)" (some "Get authors group ID. Can get paper-specific authors group."),
    MethodD.mk "get_bid_id" "get_bid_id(committee_id)" (some "Get bid invitation ID for a committee."),
    MethodD.mk "get_assignment_id" "get_assignment_id(committee_id, deployed=False, invite=False)" (some "Get assignment invitation ID. Can get proposed, deployed, or invite assignment IDs."),
    MethodD.mk "get_recommendation_id" "get_recommendation_id(committee_id=None)" (some "Get recommendation invitation ID for a committee (defaults to reviewers)."),
    MethodD.mk "get_message_sender" "get_message_sender()" (some "Generate email sender configuration with venue short name and valid notification email address."),
    MethodD.mk "ithenticate_create_and_upload_submission" "ithenticate_create_and_upload_submission()" (some "Create iThenticate submissions and upload PDFs for plagiarism checking. Requires iThenticate configuration."),
    MethodD.mk "ithenticate_request_similarity_report" "ithenticate_request_similarity_report()" (some "Request similarity reports from iThenticate for all uploaded submissions."),
    MethodD.mk "poll_ithenticate_for_status" "poll_ithenticate_for_status()" (some "Poll iThenticate for upload and similarity report status updates.")]),
  ClassD.mk "GroupBuilder" "Helper class for building and managing OpenReview group infrastructure for a venue.\n\nThe GroupBuilder class is responsible for creating and maintaining all the groups (committees, roles, and organizational units)\nneeded to operate a conference or workshop on OpenReview. It works in conjunction with the Venue class to materialize the\nvenue\x27s organizational structure.\n\nWHAT IS A GROUP IN OPENREVIEW:\nGroups in OpenReview represent collections of users and serve multiple purposes:\n- Committees: Reviewers, Area Chairs, Senior Area Chairs, Program Chairs\n- Roles: Authors, Ethics Reviewers, Publication Chairs\n- Paper-specific groups: Reviewers for Paper 1, Area Chairs for Paper 2, etc.\n- Administrative groups: Invited reviewers, Declined reviewers, Accepted authors\n\nINSTANTIATION:\nThe GroupBuilder is automatically instantiated by the Venue class and should not be created directly:\n\x60\x60\x60python\nvenue = openreview.venue.Venue(client, \x27ICML.cc/2025/Conference\x27, \x27openreview.net/Support\x27)\n# GroupBuilder is available as venue.group_builder\n# Most users won\x27t interact with GroupBuilder directly - it\x27s used internally by Venue\n\x60\x60\x60\n\nTHE VENUE/DOMAIN GROUP:\nThe most important group created by GroupBuilder is the venue group itself (also called the domain group).\nThis group:\n- Serves as the root of all venue-related groups\n- Contains metadata and configuration for the entire venue\n- Synchronizes its content with Venue class properties\n- Controls permissions and access for the venue\n\nCREATED BY create_venue_group():\nThe venue group\x27s content field stores critical configuration including:\n- submission_id: ID of the submission invitation\n- meta_invitation_id: Root invitation for edits\n- program_chairs_id: Program chairs group ID\n- reviewers_id, area_chairs_id, senior_area_chairs_id: Committee group IDs\n- Various invitation IDs for reviews, decisions, comments, etc.\n- Workflow configuration (public submissions, email settings, etc.)\n- Stage configurations (review_name, decision_name, etc.)\n\nSYNCHRONIZATION:\nWhenever venue properties change, create_venue_group() updates the domain group to reflect these changes.\nThis ensures the OpenReview platform always has current venue configuration.\n\nGROUP HIERARCHY:\nGroupBuilder creates a hierarchical structure:\n\x60\x60\x60\nICML.cc/2025/Conference (venue/domain group)\n Program_Chairs\n Reviewers\n    Invited\n    Declined\n Area_Chairs (if use_area_chairs=True)\n    Invited\n    Declined\n Senior_Area_Chairs (if use_senior_area_chairs=True)\n Authors\n    Accepted\n Ethics_Chairs (if use_ethics_chairs=True)\n Ethics_Reviewers (if use_ethics_reviewers=True)\n Publication_Chairs (if use_publication_chairs=True)\n\nAnd for each submission:\nICML.cc/2025/Conference/Submission123/\n Reviewers\n Area_Chairs\n Senior_Area_Chairs\n Authors\n\x60\x60\x60\n\nKEY METHODS:\n\nVenue Infrastructure:\n- create_venue_group(): Creates/updates the root venue group with all configuration\n- build_groups(): Creates parent groups in the hierarchy (e.g., ICML.cc, ICML.cc/2025)\n- add_to_active_venues(): Registers venue in the global active venues list\n\nCommittee Groups:\n- create_program_chairs_group(): Creates the program chairs committee\n- create_reviewers_group(): Creates reviewer committees (supports multiple reviewer roles)\n- create_area_chairs_group(): Creates area chair committees (if enabled)\n- create_senior_area_chairs_group(): Creates senior area chair committees (if enabled)\n- create_ethics_reviewers_group(): Creates ethics reviewer committee\n- create_ethics_chairs_group(): Creates ethics chair committee\n- create_publication_chairs_group(): Creates publication chair committee\n\nSpecial Purpose Groups:\n- create_authors_group(): Creates authors group and accepted authors subgroup\n- create_recruitment_committee_groups(): Creates Invited/Declined subgroups for recruitment\n- set_external_reviewer_recruitment_groups(): Sets up external reviewer infrastructure\n- create_preferred_emails_readers_group(): Creates group for preferred email access\n\nUtility Methods:\n- post_group(): Posts a group edit to OpenReview\n- get_update_content(): Computes differences between current and new content\n- update_web_field(): Updates a group\x27s web interface\n- get_reviewer_identity_readers(): Gets appropriate readers for reviewer identities\n- get_area_chair_identity_readers(): Gets appropriate readers for AC identities\n- set_impersonators(): Sets who can impersonate the venue group\n\nGROUP PERMISSIONS:\nGroupBuilder carefully manages permissions for each group:\n- readers: Who can see the group exists and read its member list\n- writers: Who can modify the group\n- signatures: Who created/modified the group\n- signatories: Who can sign on behalf of the group\n- members: Users who belong to the group\n\nExample permissions for reviewers group:\n\x60\x60\x60python\nGroup(\n    id=\x27ICML.cc/2025/Conference/Reviewers\x27,\n    readers=[venue_id, senior_area_chairs_id, area_chairs_id, reviewers_id],\n    writers=[venue_id],  # Only venue can modify\n    signatures=[venue_id],\n    signatories=[venue_id],\n    members=[]  # Populated during recruitment\n)\n\x60\x60\x60\n\nTEMPLATE-BASED WORKFLOWS:\nFor venues using OpenReview templates, GroupBuilder uses special invitations to trigger\nautomated processes that create groups with pre-configured webfields and permissions.\n\nWEBFIELDS:\nEach group type gets a customized web interface (webfield) that provides:\n- Appropriate navigation and task lists\n- Filtered views of submissions and reviews\n- Committee-specific functionality\n- Proper visualization of the reviewing workflow\n\nSYNCHRONIZATION MECHANISM:\nThe create_venue_group() method:\n1. Reads current venue group content from OpenReview\n2. Builds new content from Venue class properties\n3. Computes differences using get_update_content()\n4. Only posts updates if there are changes\n5. This keeps the OpenReview platform in sync with code\n\nIMPORTANT NOTES:\n- GroupBuilder is used internally by Venue - users typically don\x27t call it directly\n- All group operations are idempotent - safe to run multiple times\n- Groups are created lazily - only when needed\n- Paper-specific groups are created when submissions are received\n- The venue group is the \"source of truth\" for venue configuration\n\nWORKFLOW INTEGRATION:\nGroupBuilder works with other Venue components:\n- InvitationBuilder uses group IDs to create invitations\n- Recruitment uses Invited/Declined groups to track recruitment status\n- Matching uses committee groups to assign reviewers\n- The venue group content is read by all these components\n\n:param venue: Venue instance that owns this GroupBuilder\n:type venue: openreview.venue.Venue" "openreview.venue" (some [
    MethodD.mk "__init__" "__init__(venue)" (some "Initialize GroupBuilder with a Venue instance. Sets up client connections and extracts venue configuration."),
    MethodD.mk "create_venue_group" "create_venue_group()" (some "Create or update the root venue/domain group with complete configuration. This is the most important method - it synchronizes all venue settings to the OpenReview platform by updating the venue group\x27s content field with IDs, settings, and workflow configuration."),
    MethodD.mk "build_groups" "build_groups(venue_id)" (some "Create parent groups in the hierarchy (e.g., \x27ICML.cc\x27, \x27ICML.cc/2025\x27). Returns list of created groups."),
    MethodD.mk "post_group" "post_group(group)" (some "Post a group edit to OpenReview and return the updated group. Wraps client.post_group_edit with venue-specific metadata."),
    MethodD.mk "get_update_content" "get_update_content(current_content, new_content)" (some "Compute content differences between current and new group content. Returns only changed fields to minimize updates."),
    MethodD.mk "update_web_field" "update_web_field(group_id, web)" (some "Update a group\x27s webfield (web interface code)."),
    MethodD.mk "create_program_chairs_group" "create_program_chairs_group(program_chair_ids=[])" (some "Create the Program Chairs group with specified members. Program chairs have administrative privileges over the venue."),
    MethodD.mk "create_authors_group" "create_authors_group()" (some "Create the Authors group (all submitting authors) and Authors/Accepted subgroup."),
    MethodD.mk "create_reviewers_group" "create_reviewers_group()" (some "Create reviewer committee groups. Supports multiple reviewer roles if configured in venue.reviewer_roles."),
    MethodD.mk "create_area_chairs_group" "create_area_chairs_group()" (some "Create area chair committee groups. Supports multiple AC roles if configured in venue.area_chair_roles."),
    MethodD.mk "create_senior_area_chairs_group" "create_senior_area_chairs_group()" (some "Create senior area chair committee groups. Supports multiple SAC roles if configured in venue.senior_area_chair_roles."),
    MethodD.mk "create_ethics_reviewers_group" "create_ethics_reviewers_group()" (some "Create ethics reviewers committee group for handling ethics reviews."),
    MethodD.mk "create_ethics_chairs_group" "create_ethics_chairs_group()" (some "Create ethics chairs committee group for managing ethics review process."),
    MethodD.mk "create_publication_chairs_group" "create_publication_chairs_group(publication_chairs_ids)" (some "Create publication chairs group with specified members. Publication chairs manage camera-ready submissions."),
    MethodD.mk "create_preferred_emails_readers_group" "create_preferred_emails_readers_group()" (some "Create group that controls who can read preferred email addresses of committee members."),
    MethodD.mk "add_to_active_venues" "add_to_active_venues()" (some "Register this venue in the global \x27active_venues\x27 group for venue discovery and monitoring."),
    MethodD.mk "create_recruitment_committee_groups" "create_recruitment_committee_groups(committee_name)" (some "Create Invited and Declined subgroups for a committee to track recruitment status."),
    MethodD.mk "set_external_reviewer_recruitment_groups" "set_external_reviewer_recruitment_groups(name=\x27External_Reviewers\x27, create_paper_groups=False, is_ethics_reviewer=False)" (some "Set up group infrastructure for external reviewer recruitment. Creates parent groups and optionally paper-specific groups."),
    MethodD.mk "get_reviewer_identity_readers" "get_reviewer_identity_readers(number)" (some "Get the list of groups that can read reviewer identities for a specific paper number."),
    MethodD.mk "get_area_chair_identity_readers" "get_area_chair_identity_readers(number)" (some "Get the list of groups that can read area chair identities for a specific paper number."),
    MethodD.mk "get_senior_area_chair_identity_readers" "get_senior_area_chair_identity_readers(number)" (some "Get the list of groups that can read senior area chair identities for a specific paper number."),
    MethodD.mk "get_reviewer_paper_group_readers" "get_reviewer_paper_group_readers(number)" (some "Get the list of groups that can read the reviewer group for a specific paper."),
    MethodD.mk "get_reviewer_paper_group_writers" "get_reviewer_paper_group_writers(number)" (some "Get the list of groups that can modify the reviewer group for a specific paper."),
    MethodD.mk "get_area_chair_paper_group_readers" "get_area_chair_paper_group_readers(number)" (some "Get the list of groups that can read the area chair group for a specific paper."),
    MethodD.mk "set_impersonators" "set_impersonators(impersonators)" (some "Set the list of users/groups who can impersonate the venue group.")])
]

set_option maxHeartbeats 1600000 in
/-- The literal standalone-tool catalog (from `get_openreview_tools` in
`introspect.py`). -/
def get_openreview_tools : List FunctionD := [
  FunctionD.mk "get_profiles" (some "Helper function that repeatedly queries for profiles, given IDs and emails.\n\nUseful for getting more Profiles than the server will return by default (1000).\nThis function handles batch processing, creates placeholder profiles for unconfirmed emails,\nand can optionally enrich profiles with publications, relations, and preferred emails.\n\n:param client: OpenReview client instance (API 1 or API 2)\n:type client: openreview.Client or openreview.api.OpenReviewClient\n:param ids_or_emails: List of profile IDs (starting with ~) or email addresses\n:type ids_or_emails: list[str]\n:param with_publications: If True, fetches publications from both API 1 and API 2 for each profile\n:type with_publications: bool, default=False\n:param with_relations: If True, recursively fetches related profiles and adds profile_id to relations\n:type with_relations: bool, default=False\n:param with_preferred_emails: Invitation id to get edges containing preferred emails\n:type with_preferred_emails: str, optional\n:param as_dict: If True, returns dict mapping input ids/emails to profiles instead of list\n:type as_dict: bool, default=False\n\n:return: List of Profile objects, or dict mapping ids/emails to Profiles if as_dict=True\n:rtype: list[Profile] or dict[str, Profile]\n\nFeatures:\n- Automatically batches requests in groups of 1000 to handle large datasets\n- Separates IDs (~Username1) from emails for efficient querying\n- Creates placeholder Profile objects for unconfirmed email addresses\n- Fetches publications from both API versions when with_publications=True\n- Resolves profile relations recursively when with_relations=True\n- Updates preferred emails from edges when with_preferred_emails is provided\n- Returns as dictionary for easy lookup when as_dict=True") "openreview.tools" "get_profiles(client, ids_or_emails, with_publications=False, with_relations=False, with_preferred_emails=None, as_dict=False)" "function" (some [
      ParamD.mk "client" "openreview.Client or openreview.api.OpenReviewClient" true (none) "OpenReview client instance (API 1 or API 2)",
      ParamD.mk "ids_or_emails" "list[str]" true (none) "List of profile IDs (starting with ~) or email addresses",
      ParamD.mk "with_publications" "bool" false (some (PyLit.pbool false)) "If True, fetches publications from both API 1 and API 2 for each profile",
      ParamD.mk "with_relations" "bool" false (some (PyLit.pbool false)) "If True, recursively fetches related profiles and adds profile_id to relations",
      ParamD.mk "with_preferred_emails" "str" false (some PyLit.pnone) "Invitation id to get edges containing preferred emails",
      ParamD.mk "as_dict" "bool" false (some (PyLit.pbool false)) "If True, returns dict mapping input ids/emails to profiles instead of list"]) none,
  FunctionD.mk "get_own_reviews" (some "Retrieve all public reviews written by the authenticated user across both API 1 and API 2 venues.\n\nThis function is useful for users who need to:\n- Compile a history of their reviewing activity for documentation purposes\n- Generate a list of reviews for a CV or proof of service\n- Find links to all their public reviews across OpenReview\n\nUSE CASES:\n- User asks: \"How do I get proof of my reviewer service?\"\n- User asks: \"Can I see all the reviews I\x27ve written?\"\n- User asks: \"How do I get a letter of proof for reviewing?\"\n- User needs to document their academic service\n\nIMPORTANT NOTES:\n- OpenReview does NOT automatically generate reviewer letters of proof\n- Users should contact venue organizers directly for official letters\n- This function only returns PUBLIC reviews (reviews with \x27everyone\x27 in readers)\n- Works across both API 1 and API 2 venues automatically\n- Requires authentication (reviews are fetched based on logged-in user)\n\nWORKFLOW:\nThe function:\n1. Automatically detects both API 1 and API 2 base URLs from the client\n2. Creates clients for both API versions using the same authentication token\n3. Retrieves all notes authored by the user from API 1 (using tauthor=True)\n4. Retrieves all notes signed by the user from API 2 (using signature and transitive_members)\n5. Filters for official reviews based on invitation patterns\n6. Verifies that both the review and submission are public (\x27everyone\x27 in readers)\n7. Generates direct links to submissions and reviews on openreview.net\n\nHANDLING DIFFERENT VENUES:\n- API 1: Filters for invitations containing \x27Official_Review\x27\n- API 2: Extracts review invitation suffix from venue domain group content\n- Special handling for TMLR and other venues with custom invitation patterns\n\n:param client: OpenReview client instance (API 1 or API 2) with valid authentication\n:type client: openreview.Client or openreview.api.OpenReviewClient\n\n:return: List of dictionaries, each containing submission title and links to submission/review\n:rtype: list[dict]\n\nRETURN SCHEMA:\nEach dictionary in the returned list has:\n- \x27submission_title\x27: str - Title of the paper that was reviewed\n- \x27submission_link\x27: str - URL to the submission on openreview.net\n- \x27review_link\x27: str - URL to the specific review on openreview.net\n\nEXAMPLE USAGE:\n\x60\x60\x60python\nimport openreview\n\n# Login with your credentials\nclient = openreview.api.OpenReviewClient(\n    baseurl=\x27https://api2.openreview.net\x27,\n    username=\x27your_email@example.com\x27,\n    password=\x27your_password\x27\n)\n\n# Get all your public reviews\nreviews = openreview.tools.get_own_reviews(client)\n\n# Print review links\nfor review in reviews:\n    print(f\"Paper: \x7breview[\x27submission_title\x27]\x7d\")\n    print(f\"Review: \x7breview[\x27review_link\x27]\x7d\")\n    print()\n\x60\x60\x60\n\nALTERNATIVE WAYS TO VIEW REVIEWING ACTIVITY:\n- Visit openreview.net/activity to see recent activity\n- Visit openreview.net/messages to see emails from venue organizers\n- Contact venue organizers directly for official letters of service\n\nFeatures:\n- Automatically handles both API 1 and API 2 venues\n- Filters for public reviews only (protects confidential reviews)\n- Verifies submission visibility before including reviews\n- Returns direct links for easy access\n- Handles custom venue invitation patterns\n- Works with guest users (returns empty list if not authenticated)") "openreview.tools" "get_own_reviews(client)" "function" (some [
      ParamD.mk "client" "openreview.Client or openreview.api.OpenReviewClient" true (none) "Authenticated OpenReview client instance (API 1 or API 2). Must be logged in to retrieve your own reviews."]) none
]

/-- The core of `get_openreview_functions` in `introspect.py`, abstracted over
the class list its call to `get_openreview_classes()` returns: find the first
class named `"OpenReviewClient"`; if absent return `[]`; otherwise project
each method whose name does not start with `"_"` into a function record with
`module` set to `<class module>.<class name>` and `function_type` `"method"`. -/
def openreview_functions_of (classes : List ClassD) : List FunctionD :=
  match classes.find? (fun c => c.name == "OpenReviewClient") with
  | none => []
  | some client_class =>
    ((client_class.methods.getD []).filter
        (fun m => !(pyStartsWith "_" m.name))).map
      (fun m =>
        { name := m.name
          docstring := some (m.docstring.getD "")
          module := client_class.module ++ "." ++ client_class.name
          signature := m.signature
          function_type := "method"
          parameters := none
          return_type := none })

/-- `get_openreview_functions` of `introspect.py`: the derived-functions view,
built from the class catalog. -/
def get_openreview_functions : List FunctionD :=
  openreview_functions_of get_openreview_classes

/-- `search_openreview_functions` of `introspect.py`: lowercase the query and
keep, from the concatenation of derived functions and tools, every record
whose lowercased name or lowercased docstring contains it as a substring. -/
def search_openreview_functions (query : String) : List FunctionD :=
  let all_searchable := get_openreview_functions ++ get_openreview_tools
  let query_lower := pyLower query
  all_searchable.filter (fun func =>
    pyIn query_lower (pyLower func.name) ||
    pyIn query_lower (pyLower (func.docstring.getD "")))

/-- The `statistics` sub-object of `get_library_overview`. -/
structure Stats where
  total_functions : Nat
  total_classes : Nat
  total_tools : Nat
  total_modules : Nat
deriving DecidableEq

/-- One entry of the `api_versions` sub-object of `get_library_overview`. -/
structure ApiVersionInfo where
  client_class : String
  baseurl : String
  description : String
deriving DecidableEq

/-- The `api_versions` sub-object of `get_library_overview`. -/
structure ApiVersions where
  api_1 : ApiVersionInfo
  api_2 : ApiVersionInfo
  important_note : String
deriving DecidableEq

/-- The dictionary returned by `get_library_overview` in `introspect.py`. -/
structure Overview where
  functions : List FunctionD
  classes : List ClassD
  tools : List FunctionD
  modules : List String
  statistics : Stats
  api_versions : ApiVersions
  version : String
  last_updated : String
deriving DecidableEq

/-- `get_library_overview` of `introspect.py`. -/
def get_library_overview : Overview :=
  let functions := get_openreview_functions
  let classes := get_openreview_classes
  let tools := get_openreview_tools
  { functions := functions
    classes := classes
    tools := tools
    modules := ["openreview", "openreview.api", "openreview.tools", "openreview.venue"]
    statistics :=
      { total_functions := functions.length
        total_classes := classes.length
        total_tools := tools.length
        total_modules := 4 }
    api_versions :=
      { api_1 :=
          { client_class := "openreview.Client"
            baseurl := "https://api.openreview.net"
            description := "Legacy API for older venues - documented in this overview" }
        api_2 :=
          { client_class := "openreview.api.OpenReviewClient"
            baseurl := "https://api2.openreview.net"
            description := "Current API (preferred) - documented in this overview" }
        important_note := "Both API 1 and API 2 classes are now documented. Use get_api_version_guide tool for detailed guidance on which API to use" }
    version := "unknown"
    last_updated := "2024-01-01" }

/-- The response shape of the server tool `list_openreview_functions`
(`server.py`), without the transport metadata (timestamp). -/
structure ListFunctionsResponse where
  status : String
  count : Nat
  functions : List FunctionD
deriving DecidableEq

/-- The response shape of the server tool `list_openreview_classes`
(`server.py`), without the transport metadata. -/
structure ListClassesResponse where
  status : String
  count : Nat
  classes : List ClassD
deriving DecidableEq

/-- The response shape of the server tool `search_openreview_api`
(`server.py`), without the transport metadata. -/
structure SearchResponse where
  status : String
  count : Nat
  results : List FunctionD
deriving DecidableEq

/-- The record returned by `get_function_details` on a hit: the found function
record spread into a dict and augmented with `parameters := []`,
`return_type := func.get("return_type", "unknown")`, `examples := []` and
`related_functions := []`. -/
structure FunctionDetails where
  name : String
  docstring : Option String
  module : String
  signature : String
  function_type : String
  parameters : List ParamD
  return_type : String
  examples : List String
  related_functions : List String
deriving DecidableEq

/-- Result of `get_function_details`: either the detail record, or the
`{"error": msg}` dict the code returns for an empty name or a miss. -/
inductive DetailsResponse where
  | ok (details : FunctionDetails)
  | err (msg : String)
deriving DecidableEq

/-- `list_openreview_functions` of `server.py`: the derived-functions view,
filtered to an exact module match when `filter_by_module` is truthy (Python
`if filter_by_module:` — `None` and `""` are both falsy). -/
def list_openreview_functions (filter_by_module : Option String) : ListFunctionsResponse :=
  let functions := get_openreview_functions
  let functions :=
    match filter_by_module with
    | some m => if m != "" then functions.filter (fun f => f.module == m) else functions
    | none => functions
  { status := "success", count := functions.length, functions := functions }

/-- `list_openreview_classes` of `server.py`: all classes; when
`include_methods` is false, each class dict has its `methods` key removed
(`cls.pop("methods", None)`). -/
def list_openreview_classes (include_methods : Bool) : ListClassesResponse :=
  let classes := get_openreview_classes
  let classes :=
    if include_methods then classes
    else classes.map (fun cls => { cls with methods := none })
  { status := "success", count := classes.length, classes := classes }

/-- `search_openreview_api` of `server.py`: empty or whitespace-only queries
(`if not query or not query.strip():`) yield a success response with zero
results; otherwise the stripped query is passed to
`search_openreview_functions`. -/
def search_openreview_api (query : String) : SearchResponse :=
  if query == "" || pyStrip query == "" then
    { status := "success", count := 0, results := [] }
  else
    let matching_functions := search_openreview_functions (pyStrip query)
    { status := "success", count := matching_functions.length, results := matching_functions }

/-- `get_function_details` of `server.py`: reject the empty name, otherwise
scan the derived-functions view for the first record whose name equals the
input exactly and return it augmented with the placeholder fields; on a miss
return the not-found error dict. -/
def get_function_details (function_name : String) : DetailsResponse :=
  if function_name == "" then
    DetailsResponse.err "Empty function name provided"
  else
    match get_openreview_functions.find? (fun func => func.name == function_name) with
    | some func =>
      DetailsResponse.ok
        { name := func.name
          docstring := func.docstring
          module := func.module
          signature := func.signature
          function_type := func.function_type
          parameters := []
          return_type := func.return_type.getD "unknown"
          examples := []
          related_functions := [] }
    | none => DetailsResponse.err ("Function \x27" ++ function_name ++ "\x27 not found")

/-- A heap of Python class-dict objects, for reasoning about object identity:
each call to `get_openreview_classes()` re-evaluates the list literal, so it
allocates fresh dict objects.  References are indices into the heap. -/
structure ClassStore where
  objs : List ClassD
deriving DecidableEq

/-- One call to `get_openreview_classes()`: allocate fresh copies of the
canonical literal catalog at the end of the heap and return their
references. -/
def allocClasses (s : ClassStore) : ClassStore × List Nat :=
  (⟨s.objs ++ get_openreview_classes⟩,
   (List.range get_openreview_classes.length).map (fun i => s.objs.length + i))

/-- The in-place mutation performed by `list_openreview_classes` with
`include_methods=False`: `cls.pop("methods", None)` on every referenced class
object. -/
def popMethodsAt (s : ClassStore) (refs : List Nat) : ClassStore :=
  ⟨s.objs.mapIdx (fun i cls => if refs.contains i then { cls with methods := none } else cls)⟩

/-- Dereference a list of class-object references. -/
def readClasses (s : ClassStore) (refs : List Nat) : List (Option ClassD) :=
  refs.map (fun r => s.objs[r]?)

/-- The concrete scenario class of the specification (section 8): a primary
client class with a constructor, one public method and one private helper.
Used to witness the derived-view projection. -/
def scenario_class : ClassD :=
  ClassD.mk "OpenReviewClient" "Primary client" "openreview.api"
    (some
      [MethodD.mk "__init__" "__init__(self)" (some "init"),
       MethodD.mk "get_note" "get_note(id, details=None)" (some "Get a note"),
       MethodD.mk "_internal_helper" "_internal_helper()" (some "helper")])

lemma pyInList_nil (l : List Char) : pyInList [] l = true := by
  cases l <;> rfl

lemma pyIn_empty_left (h : String) : pyIn "" h = true := pyInList_nil h.data

lemma getElem?_append_offset (pre l : List ClassD) (i : Nat) :
    (pre ++ l)[pre.length + i]? = l[i]? := by
  rw [List.getElem?_append_right (Nat.le_add_right _ _)]
  simp

lemma range_map_getElem? (l : List ClassD) :
    (List.range l.length).map (fun i => l[i]?) = l.map some := by
  induction l with
  | nil => rfl
  | cons a t ih =>
    rw [List.length_cons, List.range_succ_eq_map, List.map_cons, List.map_map, List.map_cons]
    refine congrArg₂ _ (by simp) ?_
    have hcomp : ((fun i => (a :: t)[i]?) ∘ (fun i => i + 1)) = fun i => t[i]? := by
      funext i
      simp
    rw [hcomp, ih]

lemma alloc_read_fresh (s : ClassStore) :
    readClasses (allocClasses s).1 (allocClasses s).2 = get_openreview_classes.map some := by
  unfold readClasses allocClasses
  rw [List.map_map]
  have hcomp : ((fun r => (s.objs ++ get_openreview_classes)[r]?) ∘ (fun i => s.objs.length + i)) =
      fun i => get_openreview_classes[i]? := by
    funext i
    exact getElem?_append_offset _ _ i
  rw [hcomp, range_map_getElem?]

/-- Claim C1: for every query that is non-empty after stripping surrounding
whitespace, the search operation returns exactly the records of the
concatenated view (derived functions first, then tools) whose lowercased name
or lowercased docstring contains the lowercased stripped query as a substring,
in the order of that concatenated view (soundness, completeness, and order
preservation in one filter equation, plus the membership characterisation). -/
theorem search_api_sound_complete_ordered (q : String) (h : pyStrip q ≠ "") :
    (search_openreview_api q).results =
      (get_openreview_functions ++ get_openreview_tools).filter
        (fun func =>
          pyIn (pyLower (pyStrip q)) (pyLower func.name) ||
          pyIn (pyLower (pyStrip q)) (pyLower (func.docstring.getD ""))) ∧
    ∀ func : FunctionD,
      func ∈ (search_openreview_api q).results ↔
        func ∈ get_openreview_functions ++ get_openreview_tools ∧
        (pyIn (pyLower (pyStrip q)) (pyLower func.name) = true ∨
         pyIn (pyLower (pyStrip q)) (pyLower (func.docstring.getD "")) = true) := by
  have hq : (q == "") = false := by
    refine beq_eq_false_iff_ne.mpr fun hq => h ?_
    rw [hq]
    rfl
  have hs : (pyStrip q == "") = false := beq_eq_false_iff_ne.mpr h
  have key : (search_openreview_api q).results =
      (get_openreview_functions ++ get_openreview_tools).filter
        (fun func =>
          pyIn (pyLower (pyStrip q)) (pyLower func.name) ||
          pyIn (pyLower (pyStrip q)) (pyLower (func.docstring.getD ""))) := by
    unfold search_openreview_api
    rw [hq, hs]
    rfl
  refine ⟨key, fun func => ?_⟩
  rw [key, List.mem_filter]
  simp [Bool.or_eq_true]

/-- Witness for C1 at the concrete query `"  Note "`. -/
theorem search_api_sound_complete_ordered_witness :
    pyStrip "  Note " ≠ "" ∧
    ((search_openreview_api "  Note ").results =
      (get_openreview_functions ++ get_openreview_tools).filter
        (fun func =>
          pyIn (pyLower (pyStrip "  Note ")) (pyLower func.name) ||
          pyIn (pyLower (pyStrip "  Note ")) (pyLower (func.docstring.getD ""))) ∧
     ∀ func : FunctionD,
       func ∈ (search_openreview_api "  Note ").results ↔
         func ∈ get_openreview_functions ++ get_openreview_tools ∧
         (pyIn (pyLower (pyStrip "  Note ")) (pyLower func.name) = true ∨
          pyIn (pyLower (pyStrip "  Note ")) (pyLower (func.docstring.getD "")) = true)) :=
  ⟨by decide, search_api_sound_complete_ordered "  Note " (by decide)⟩

/-- Claim C2: when a class named `"OpenReviewClient"` is found in the classes
view, the derived-functions view consists of exactly one record per method
whose name neither starts with `"_"` nor is `"__init__"`, in source order,
with name, docstring (empty if absent) and signature copied, module set to
`<class module>.<class name>`, and function type `"method"`. -/
theorem derived_functions_projection (classes : List ClassD) (c : ClassD)
    (h : classes.find? (fun cl => cl.name == "OpenReviewClient") = some c) :
    openreview_functions_of classes =
      ((c.methods.getD []).filter
          (fun m => !(pyStartsWith "_" m.name) && !(m.name == "__init__"))).map
        (fun m =>
          { name := m.name
            docstring := some (m.docstring.getD "")
            module := c.module ++ "." ++ c.name
            signature := m.signature
            function_type := "method"
            parameters := none
            return_type := none }) := by
  have hfil : (c.methods.getD []).filter
        (fun m => !(pyStartsWith "_" m.name) && !(m.name == "__init__")) =
      (c.methods.getD []).filter (fun m => !(pyStartsWith "_" m.name)) := by
    apply List.filter_congr
    intro m _
    cases hs : pyStartsWith "_" m.name
    · cases he : m.name == "__init__"
      · rfl
      · have hn : m.name = "__init__" := eq_of_beq he
        rw [hn] at hs
        exact absurd hs (by decide)
    · rfl
  unfold openreview_functions_of
  rw [h, hfil]

/-- Witness for C2 at the specification's concrete scenario: only `get_note`
survives the projection; `__init__` and `_internal_helper` are omitted. -/
theorem derived_functions_projection_witness :
    [scenario_class].find? (fun cl => cl.name == "OpenReviewClient") = some scenario_class ∧
    openreview_functions_of [scenario_class] =
      [FunctionD.mk "get_note" (some "Get a note") "openreview.api.OpenReviewClient"
        "get_note(id, details=None)" "method" none none] :=
  ⟨rfl, (derived_functions_projection [scenario_class] scenario_class rfl).trans rfl⟩

/-- Claim C3: for every non-empty name, the detail lookup returns the first
derived-functions record with exactly that name, augmented with the empty
placeholder fields, when one exists; otherwise it returns the not-found error
value naming the input (it is a total function, so it never raises). -/
theorem function_details_spec (n : String) (h : n ≠ "") :
    (∀ f, get_openreview_functions.find? (fun g => g.name == n) = some f →
      get_function_details n = DetailsResponse.ok
        { name := f.name
          docstring := f.docstring
          module := f.module
          signature := f.signature
          function_type := f.function_type
          parameters := []
          return_type := f.return_type.getD "unknown"
          examples := []
          related_functions := [] }) ∧
    (get_openreview_functions.find? (fun g => g.name == n) = none →
      get_function_details n = DetailsResponse.err ("Function \x27" ++ n ++ "\x27 not found")) ∧
    (∀ f, get_openreview_functions.find? (fun g => g.name == n) = some f → f.name = n) := by
  have hbe : (n == "") = false := beq_eq_false_iff_ne.mpr h
  refine ⟨fun f hf => ?_, fun hf => ?_, fun f hf => ?_⟩
  · unfold get_function_details
    rw [hbe, hf]
    rfl
  · unfold get_function_details
    rw [hbe, hf]
    rfl
  · have hp := List.find?_some hf
    exact eq_of_beq hp

/-- Witness for C3 at a name absent from the derived-functions view. -/
theorem function_details_spec_witness :
    ("nonexistent_function" : String) ≠ "" ∧
    get_openreview_functions.find? (fun g => g.name == "nonexistent_function") = none ∧
    get_function_details "nonexistent_function" =
      DetailsResponse.err ("Function \x27" ++ "nonexistent_function" ++ "\x27 not found") :=
  ⟨by decide, rfl,
   (function_details_spec "nonexistent_function" (by decide)).2.1 rfl⟩

/-- Claim C4: the overview's statistics counts equal the lengths of the
functions, classes, tools and modules views returned in the same call. -/
theorem overview_statistics_consistent :
    get_library_overview.statistics.total_functions = get_library_overview.functions.length ∧
    get_library_overview.statistics.total_classes = get_library_overview.classes.length ∧
    get_library_overview.statistics.total_tools = get_library_overview.tools.length ∧
    get_library_overview.statistics.total_modules = get_library_overview.modules.length :=
  ⟨rfl, rfl, rfl, rfl⟩

/-- Claim C5: a query that is empty or whitespace-only yields a success-shaped
search response with zero results and count zero. -/
theorem search_api_blank_query (q : String) (h : pyStrip q = "") :
    search_openreview_api q = { status := "success", count := 0, results := [] } := by
  unfold search_openreview_api
  rw [h]
  simp

/-- Witness for C5 at the whitespace-only query `"   "`. -/
theorem search_api_blank_query_witness :
    pyStrip "   " = "" ∧
    search_openreview_api "   " = { status := "success", count := 0, results := [] } :=
  ⟨rfl, search_api_blank_query "   " rfl⟩

/-- Counterexample for C6 as stated: at the filter string `""` the listing
does not return the records whose module equals `""` — Python's
`if filter_by_module:` treats the empty string as falsy, so the full
derived-functions view (87 records, none with an empty module) is returned
instead of the empty filtered list. -/
theorem list_functions_empty_filter_counterexample :
    ¬ ((list_openreview_functions (some "")).functions =
        get_openreview_functions.filter (fun f => f.module == "")) := by
  intro hEq
  have h1 : (list_openreview_functions (some "")).functions = get_openreview_functions := rfl
  have h2 : get_openreview_functions.filter (fun f => f.module == "") = [] := rfl
  rw [h1, h2] at hEq
  have hlen : get_openreview_functions.length = 87 := rfl
  rw [hEq] at hlen
  simp at hlen

/-- Claim C6 amended: for every non-empty filter string the listing returns
exactly the derived-functions records whose module equals the filter by exact
string equality, in their original order; with no filter, or with the empty
string (which the code's truthiness test treats like no filter), it returns
the full derived-functions view. -/
theorem list_functions_module_filtering (m : String) :
    (m ≠ "" →
      (list_openreview_functions (some m)).functions =
        get_openreview_functions.filter (fun f => f.module == m)) ∧
    (list_openreview_functions none).functions = get_openreview_functions ∧
    (list_openreview_functions (some "")).functions = get_openreview_functions := by
  refine ⟨fun h => ?_, rfl, rfl⟩
  have hbne : (m != "") = true := bne_iff_ne.mpr h
  show (if (m != "") = true then get_openreview_functions.filter (fun f => f.module == m)
        else get_openreview_functions) =
      get_openreview_functions.filter (fun f => f.module == m)
  rw [hbne]
  simp

/-- Witness for the amended C6 at the filter string `"openreview.tools"`. -/
theorem list_functions_module_filtering_witness :
    ("openreview.tools" : String) ≠ "" ∧
    (list_openreview_functions (some "openreview.tools")).functions =
      get_openreview_functions.filter (fun f => f.module == "openreview.tools") :=
  ⟨by decide, (list_functions_module_filtering "openreview.tools").1 (by decide)⟩

/-- Claim C7: with `include_methods=False` every returned class record has its
methods key removed (so no record carries a non-empty method list), and with
`include_methods=True` the returned classes are exactly `get_openreview_classes`,
method sequences unmodified. -/
theorem list_classes_methods_toggle :
    (list_openreview_classes false).classes.all (fun cls => cls.methods.isNone) = true ∧
    (list_openreview_classes true).classes = get_openreview_classes := by
  constructor
  · have key : ∀ (l : List ClassD),
        (l.map (fun cls => ({ cls with methods := none } : ClassD))).all
          (fun cls => cls.methods.isNone) = true := by
      intro l
      rw [List.all_map]
      apply List.all_eq_true.mpr
      intro x _
      rfl
    exact key get_openreview_classes
  · rfl

/-- Claim C8: when no class in the given catalog is named
`"OpenReviewClient"`, the derived-functions accessor returns the empty list
rather than an error. -/
theorem derived_functions_absent_client (classes : List ClassD)
    (h : classes.find? (fun cl => cl.name == "OpenReviewClient") = none) :
    openreview_functions_of classes = [] := by
  unfold openreview_functions_of
  rw [h]

/-- Witness for C8 at a one-class catalog without an `OpenReviewClient`. -/
theorem derived_functions_absent_client_witness :
    [ClassD.mk "Note" "A note" "openreview.api" (some [])].find?
        (fun cl => cl.name == "OpenReviewClient") = none ∧
    openreview_functions_of [ClassD.mk "Note" "A note" "openreview.api" (some [])] = [] :=
  ⟨rfl, derived_functions_absent_client _ rfl⟩

/-- Claim C9: each call to the class accessor allocates fresh copies of the
canonical literal catalog, so performing the `include_methods=False` mutation
(`cls.pop("methods", None)`) through the references returned by one call
leaves the objects returned by a subsequent call equal to the untouched
canonical catalog. -/
theorem fresh_copies_survive_pop (s : ClassStore) :
    readClasses
      (allocClasses (popMethodsAt (allocClasses s).1 (allocClasses s).2)).1
      (allocClasses (popMethodsAt (allocClasses s).1 (allocClasses s).2)).2
    = get_openreview_classes.map some :=
  alloc_read_fresh _

/-- Claim C10: applied directly to the empty string, the core search function
returns the whole concatenated view (derived functions then tools), because
the empty string is a substring of everything; the empty-query guard that
returns zero results lives only in the server wrapper. -/
theorem core_search_empty_query_returns_all :
    search_openreview_functions "" = get_openreview_functions ++ get_openreview_tools ∧
    (search_openreview_api "").results = [] := by
  constructor
  · unfold search_openreview_functions
    apply List.filter_eq_self.mpr
    intro a _
    have h1 : pyLower "" = "" := rfl
    rw [h1, pyIn_empty_left, Bool.true_or]
  · rfl
